import Mathlib

/-!
Shallow embedding of the shards-prometheus plugin (src/prometheus.cpp).

The C++ file binds the prometheus-cpp client library into the shards host
runtime.  The shard-level logic (handle validation in `Base::warmup`, the
name-to-family maps in `Exposer`, the label-set selection and map lookups in
the three `warmup` functions, and the three `activate` functions) is embedded
directly from src/prometheus.cpp.  The prometheus-cpp library itself
(`prometheus::Counter`, `prometheus::Gauge`, `prometheus::Histogram`,
`prometheus::Registry`) is not part of this repository's sources, so those
operations are modelled from the specification and marked as such in their
doc comments.  C++ `double`s are modelled as exact rationals `ℚ`.
-/

/-- Errors raised by the embedded operations.  `activationError` and
`warmupError` come from the shard code in src/prometheus.cpp;
`kindConflict` and `configurationError` are the spec's taxonomy for the
registry and histogram-boundary failures; `outOfRange` models the C++
`std::out_of_range` thrown by `std::unordered_map::at` on a missing key. -/
inductive ShardError where
  | activationError (msg : String)
  | warmupError (msg : String)
  | kindConflict
  | configurationError
  | outOfRange
  deriving DecidableEq, Repr

/-! ## MetricPoint state (library side, modelled from the spec) -/

/-- Modelled from the spec: a `prometheus::Counter` metric point is a
non-negative double created at zero; the library is not under src/. -/
structure Counter where
  value : ℚ
  deriving DecidableEq, Repr

/-- Modelled from the spec: a freshly created Counter starts at zero. -/
def Counter.new : Counter := { value := 0 }

/-- Modelled from the spec: a `prometheus::Gauge` metric point stores an
arbitrary double; the library is not under src/. -/
structure Gauge where
  value : ℚ
  deriving DecidableEq, Repr

/-- Modelled from the spec: a `prometheus::Histogram` metric point holds the
immutable bucket boundaries fixed at creation, one cumulative count per
boundary, an implicit overflow (+Inf) count, and the running sum of observed
values; the library is not under src/. -/
structure Histogram where
  boundaries : List ℚ
  bucketCounts : List ℕ
  infCount : ℕ
  sum : ℚ
  deriving DecidableEq, Repr

/-- Modelled from the spec: `Histogram.Observe(value)` increments the count of
every bucket whose boundary is ≥ the observed value, always counts the
observation in the +Inf bucket, and adds the value to the running sum. -/
def Histogram.observe (h : Histogram) (v : ℚ) : Histogram :=
  { boundaries := h.boundaries
    bucketCounts :=
      List.zipWith (fun b c => if v ≤ b then c + 1 else c) h.boundaries h.bucketCounts
    infCount := h.infCount + 1
    sum := h.sum + v }

/-- Fold a sequence of observations over a histogram point. -/
def Histogram.observeMany (h : Histogram) (vs : List ℚ) : Histogram :=
  vs.foldl Histogram.observe h

/-- Boundary lists must be strictly ascending; decidable check used by the
spec-modelled histogram creation. -/
def strictlyAscending : List ℚ → Bool
  | [] => true
  | [_] => true
  | a :: b :: rest => decide (a < b) && strictlyAscending (b :: rest)

/-- Modelled from the spec: creating a Histogram series with its fixed
boundary set fails with a `ConfigurationError` when the boundary list is
empty or not strictly ascending, and otherwise yields the zero-valued point
with one zero bucket count per boundary; the library-side creation is not
under src/. -/
def Histogram.create (bs : List ℚ) : Except ShardError Histogram :=
  if bs = [] ∨ strictlyAscending bs = false then
    .error .configurationError
  else
    .ok { boundaries := bs
          bucketCounts := List.replicate bs.length 0
          infCount := 0
          sum := 0 }

/-! ## Registry and Exposer state -/

/-- The three metric kinds a name can be bound to. -/
inductive Kind where
  | counter
  | gauge
  | histogram
  deriving DecidableEq, Repr

/-- Modelled from the spec: the `prometheus::Registry` binds each metric name
to one kind; the library registry is not under src/, so only the name→kind
binding the claims need is modelled. -/
def Registry := List (String × Kind)

/-- Modelled from the spec: `Register(name, kind)` fails with `KindConflict`
when the name already exists bound to a different kind, and otherwise returns
the registry with the existing or newly created family for the name. -/
def Registry.register (r : Registry) (name : String) (k : Kind) :
    Except ShardError Registry :=
  match List.lookup name r with
  | some k2 => if k2 = k then .ok r else .error .kindConflict
  | none => .ok ((name, k) :: r)

/-- State of a `Prometheus::Exposer` object relevant to the warmup logic:
the registry plus the three per-kind name maps `counters`, `gauges` and
`histograms` (src/prometheus.cpp lines 34-45).  Map keys are modelled as
lists of names. -/
structure ExposerState where
  registry : Registry
  counters : List String
  gauges : List String
  histograms : List String

/-- A freshly warmed-up exposer holds an empty registry and empty maps
(src/prometheus.cpp lines 70-81). -/
def ExposerState.empty : ExposerState :=
  { registry := [], counters := [], gauges := [], histograms := [] }

/-- `std::unordered_map::emplace` inserts only when the key is absent. -/
def emplaceKey (name : String) (keys : List String) : List String :=
  if name ∈ keys then keys else name :: keys

/-! ## Handle validation (Base::warmup) -/

/-- Subset of `SHType` value tags the handle check distinguishes. -/
inductive SHType where
  | none
  | object
  | float
  deriving DecidableEq, Repr

/-- The tag fields of an `SHVar` inspected by `Prometheus::Base::warmup`. -/
structure SHVarTag where
  valueType : SHType
  objectVendorId : ℕ
  objectTypeId : ℕ
  deriving DecidableEq, Repr

/-- The multi-character literal `'frag'` used as vendor id. -/
def fragId : ℕ := 0x66726167

/-- The multi-character literal `'prom'` used as type id. -/
def promId : ℕ := 0x70726f6d

/-- Handle validation from `Prometheus::Base::warmup`
(src/prometheus.cpp lines 160-167): the referenced `Prometheus.Exposer`
variable must be an object tagged with vendor `'frag'` and type `'prom'`,
otherwise a `WarmupError` is thrown. -/
def Base.warmupCheck (v : SHVarTag) : Except ShardError Unit :=
  if v.valueType ≠ SHType.object ∨ v.objectVendorId ≠ fragId ∨
      v.objectTypeId ≠ promId then
    .error (.warmupError "Prometheus.Exposer is not an exposer")
  else
    .ok ()

/-! ## Shard warmups (map/registry logic, from src/prometheus.cpp) -/

/-- Map and registry logic of `Prometheus::Increment::warmup`
(src/prometheus.cpp lines 180-200): when `counters` has no entry for the
name, a counter family is registered and emplaced; otherwise the stored
family is looked up with `counters.at(name)`. -/
def Increment.warmup (e : ExposerState) (name : String) :
    Except ShardError ExposerState :=
  if name ∈ e.counters then
    .ok e
  else
    match Registry.register e.registry name .counter with
    | .error err => .error err
    | .ok r => .ok { e with registry := r, counters := emplaceKey name e.counters }

/-- Map and registry logic of `Prometheus::Gauge::warmup`
(src/prometheus.cpp lines 220-240).  The source tests
`e->counters.count(_name) == 0` — the counters map, not the gauges map — and
in the else branch calls `e->gauges.at(_name)`, which throws
`std::out_of_range` when the gauges map has no such key. -/
def Gauge.warmup (e : ExposerState) (name : String) :
    Except ShardError ExposerState :=
  if name ∈ e.counters then
    if name ∈ e.gauges then .ok e else .error .outOfRange
  else
    match Registry.register e.registry name .gauge with
    | .error err => .error err
    | .ok r => .ok { e with registry := r, gauges := emplaceKey name e.gauges }

/-- Map and registry logic of `Prometheus::Histogram::warmup`
(src/prometheus.cpp lines 259-294): when `histograms` has no entry for the
name, a histogram family is registered and emplaced; in both branches the
metric point is created with the configured bucket boundaries. -/
def Histogram.warmup (e : ExposerState) (name : String) (bs : List ℚ) :
    Except ShardError (ExposerState × Histogram) :=
  if name ∈ e.histograms then
    match Histogram.create bs with
    | .error err => .error err
    | .ok h => .ok (e, h)
  else
    match Registry.register e.registry name .histogram with
    | .error err => .error err
    | .ok r =>
      match Histogram.create bs with
      | .error err => .error err
      | .ok h =>
        .ok ({ e with registry := r, histograms := emplaceKey name e.histograms }, h)

/-- Full `Prometheus::Increment::warmup`: `Base::warmup` handle validation
first, then the map/registry logic (src/prometheus.cpp lines 180-181). -/
def Increment.warmupFull (v : SHVarTag) (e : ExposerState) (name : String) :
    Except ShardError ExposerState :=
  match Base.warmupCheck v with
  | .error err => .error err
  | .ok _ => Increment.warmup e name

/-- Full `Prometheus::Gauge::warmup`: `Base::warmup` handle validation first,
then the map/registry logic (src/prometheus.cpp lines 220-221). -/
def Gauge.warmupFull (v : SHVarTag) (e : ExposerState) (name : String) :
    Except ShardError ExposerState :=
  match Base.warmupCheck v with
  | .error err => .error err
  | .ok _ => Gauge.warmup e name

/-- Full `Prometheus::Histogram::warmup`: `Base::warmup` handle validation
first, then the map/registry logic (src/prometheus.cpp lines 259-260). -/
def Histogram.warmupFull (v : SHVarTag) (e : ExposerState) (name : String)
    (bs : List ℚ) : Except ShardError (ExposerState × Histogram) :=
  match Base.warmupCheck v with
  | .error err => .error err
  | .ok _ => Histogram.warmup e name bs

/-! ## Label-set selection (per shard, from src/prometheus.cpp) -/

/-- Label-set selection in `Prometheus::Increment::warmup`
(src/prometheus.cpp lines 189-198): an empty `Label` parameter yields
`Add({})`, otherwise `Add({{{_label, _value}}})`. -/
def Increment.pointLabels (label value : String) : List (String × String) :=
  if label = "" then [] else [(label, value)]

/-- Label-set selection in `Prometheus::Gauge::warmup`
(src/prometheus.cpp lines 229-238): an empty `Label` parameter yields
`Add({})`, otherwise `Add({{{_label, _value}}})`. -/
def Gauge.pointLabels (label value : String) : List (String × String) :=
  if label = "" then [] else [(label, value)]

/-- Label-set selection in `Prometheus::Histogram::warmup`
(src/prometheus.cpp lines 275-292): an empty `Label` parameter yields
`Add({}, boundaries)`, otherwise `Add({{_label, _value}}, boundaries)`. -/
def Histogram.pointLabels (label value : String) : List (String × String) :=
  if label = "" then [] else [(label, value)]

/-! ## Shard activates (from src/prometheus.cpp) -/

/-- `Prometheus::Increment::activate` (src/prometheus.cpp lines 208-214):
a negative input throws an `ActivationError` before the counter is touched;
otherwise the input is added to the counter (the library
`Counter::Increment` add is modelled from the spec as exact addition) and the
input is returned unchanged. -/
def Increment.activate (c : Counter) (input : ℚ) :
    Except ShardError (Counter × ℚ) :=
  if input < 0 then
    .error (.activationError "Prometheus Increment should be a positive number")
  else
    .ok ({ value := c.value + input }, input)

/-- Counter state after one `Increment::activate` call; a thrown
`ActivationError` leaves the counter unchanged. -/
def Increment.step (c : Counter) (input : ℚ) : Counter :=
  match Increment.activate c input with
  | .ok (c2, _) => c2
  | .error _ => c

/-- Run a sequence of `Increment::activate` calls, propagating the first
error. -/
def Increment.run (c : Counter) (ds : List ℚ) : Except ShardError Counter :=
  match ds with
  | [] => .ok c
  | d :: rest =>
    match Increment.activate c d with
    | .error err => .error err
    | .ok (c2, _) => Increment.run c2 rest

/-- `Prometheus::Gauge::activate` (src/prometheus.cpp lines 248-251):
`Set` replaces the stored value (the library `Gauge::Set` is modelled from
the spec as replacement) and the input is returned unchanged. -/
def Gauge.activate (_g : Gauge) (input : ℚ) : Except ShardError (Gauge × ℚ) :=
  .ok ({ value := input }, input)

/-- Gauge state after one `Gauge::activate` call. -/
def Gauge.step (g : Gauge) (input : ℚ) : Gauge :=
  match Gauge.activate g input with
  | .ok (g2, _) => g2
  | .error _ => g

/-- Run a sequence of `Gauge::activate` calls. -/
def Gauge.run (g : Gauge) (vs : List ℚ) : Gauge :=
  vs.foldl Gauge.step g

/-- `Prometheus::Histogram::activate` (src/prometheus.cpp lines 302-305):
`Observe` records the input in the histogram point and the input is returned
unchanged. -/
def Histogram.activate (h : Histogram) (input : ℚ) :
    Except ShardError (Histogram × ℚ) :=
  .ok (h.observe input, input)

/-- Exposer state after a Counter shard registered the name "m"
(used to exercise the Gauge warmup's map-lookup path). -/
def counterMState : ExposerState :=
  { registry := [("m", Kind.counter)], counters := ["m"],
    gauges := [], histograms := [] }

/-- Exposer state after a Gauge shard registered the name "g". -/
def gaugeGState : ExposerState :=
  { registry := [("g", Kind.gauge)], counters := [],
    gauges := ["g"], histograms := [] }

/-! ## Helper lemmas -/

/-- Running increments from any counter with non-negative deltas succeeds and
adds the sum of the deltas. -/
theorem Increment.run_ok (ds : List ℚ) : ∀ c : Counter, (∀ d ∈ ds, 0 ≤ d) →
    Increment.run c ds = .ok { value := c.value + ds.sum } := by
  induction ds with
  | nil =>
    intro c _
    simp [Increment.run]
  | cons d rest ih =>
    intro c hall
    have hd : 0 ≤ d := hall d (by simp)
    have hrest : ∀ x ∈ rest, 0 ≤ x := fun x hx => hall x (by simp [hx])
    simp only [Increment.run, Increment.activate, if_neg (not_lt.mpr hd)]
    rw [ih _ hrest]
    simp [List.sum_cons, add_assoc]

/-- One shard activation never decreases the counter value. -/
theorem Increment.step_mono (c : Counter) (d : ℚ) :
    c.value ≤ (Increment.step c d).value := by
  by_cases hd : d < 0
  · simp [Increment.step, Increment.activate, hd]
  · simp only [Increment.step, Increment.activate, if_neg hd]
    have : 0 ≤ d := not_lt.mp hd
    linarith

/-- A fold of shard activations never decreases the counter value. -/
theorem Increment.foldl_step_le (ds : List ℚ) : ∀ c : Counter,
    c.value ≤ (List.foldl Increment.step c ds).value := by
  induction ds with
  | nil =>
    intro c
    simp
  | cons d rest ih =>
    intro c
    calc c.value ≤ (Increment.step c d).value := Increment.step_mono c d
      _ ≤ (List.foldl Increment.step (Increment.step c d) rest).value := ih _
      _ = (List.foldl Increment.step c (d :: rest)).value := by
          simp [List.foldl_cons]

/-! ## Claims -/

/-- C2: for every finite sequence of Increment(d) calls with every d ≥ 0 on
one Counter, starting from the created-at-zero state, the final stored value
equals the sum of all the deltas. -/
theorem counter_value_is_sum_of_deltas (ds : List ℚ) (hall : ∀ d ∈ ds, 0 ≤ d) :
    Increment.run Counter.new ds = .ok { value := ds.sum } := by
  have h := Increment.run_ok ds Counter.new hall
  simpa [Counter.new] using h

/-- Witness for C2 at the concrete delta sequence [1, 2, 3]. -/
theorem counter_value_is_sum_of_deltas_witness :
    Increment.run Counter.new [1, 2, 3] = .ok { value := 6 } := by
  have h := counter_value_is_sum_of_deltas [1, 2, 3] (by norm_num)
  norm_num at h
  exact h

/-- C3: Increment's activate raises an error exactly when the delta is
negative; the error path leaves the counter unchanged, and a non-negative
delta is added to the stored value. -/
theorem increment_rejects_negative_delta (c : Counter) (d : ℚ) :
    ((Increment.activate c d).isOk = false ↔ d < 0) ∧
    (d < 0 → Increment.activate c d =
        .error (.activationError "Prometheus Increment should be a positive number") ∧
      Increment.step c d = c) ∧
    (0 ≤ d → Increment.activate c d = .ok ({ value := c.value + d }, d)) := by
  refine ⟨?_, ?_, ?_⟩
  · by_cases hd : d < 0 <;>
      simp [Increment.activate, hd, Except.isOk, Except.toBool]
  · intro hd
    constructor <;> simp [Increment.activate, Increment.step, hd]
  · intro hd
    simp [Increment.activate, not_lt.mpr hd]

/-- Witness for C3 at delta -1 (rejected, counter untouched) and delta 2
(added). -/
theorem increment_rejects_negative_delta_witness :
    (Increment.activate Counter.new (-1)).isOk = false ∧
    Increment.step Counter.new (-1) = Counter.new ∧
    Increment.activate Counter.new 2 = .ok ({ value := 2 }, 2) := by
  refine ⟨?_, ?_, ?_⟩
  · exact (increment_rejects_negative_delta Counter.new (-1)).1.mpr (by norm_num)
  · exact ((increment_rejects_negative_delta Counter.new (-1)).2.1 (by norm_num)).2
  · have h := (increment_rejects_negative_delta Counter.new 2).2.2 (by norm_num)
    simpa [Counter.new] using h

/-- C6: a Counter is created at zero, an activation succeeds exactly for
non-negative deltas, a single activation never decreases the value, and after
any sequence of activations from the created state the value is still
non-negative. -/
theorem counter_nonneg_monotone_invariant :
    Counter.new.value = 0 ∧
    (∀ (c : Counter) (d : ℚ), ((Increment.activate c d).isOk = true ↔ 0 ≤ d)) ∧
    (∀ (c : Counter) (d : ℚ), c.value ≤ (Increment.step c d).value) ∧
    (∀ ds : List ℚ, 0 ≤ (List.foldl Increment.step Counter.new ds).value) := by
  refine ⟨rfl, ?_, Increment.step_mono, ?_⟩
  · intro c d
    by_cases hd : d < 0
    · simp only [Increment.activate, if_pos hd, Except.isOk, Except.toBool]
      simp [not_le.mpr hd]
    · simp only [Increment.activate, if_neg hd, Except.isOk, Except.toBool]
      simp [not_lt.mp hd]
  · intro ds
    have h := Increment.foldl_step_le ds Counter.new
    simpa [Counter.new] using h

/-- Witness for C6 at a concrete counter state and delta sequence. -/
theorem counter_nonneg_monotone_invariant_witness :
    (5 : ℚ) ≤ (Increment.step { value := 5 } 2).value ∧
    0 ≤ (List.foldl Increment.step Counter.new [1, 2]).value :=
  ⟨counter_nonneg_monotone_invariant.2.2.1 { value := 5 } 2,
   counter_nonneg_monotone_invariant.2.2.2 [1, 2]⟩

/-- The last value fed to a sequence of Gauge activations is the stored
value. -/
theorem Gauge.run_getLast (vs : List ℚ) : ∀ g : Gauge, vs ≠ [] →
    vs.getLast? = some (Gauge.run g vs).value := by
  induction vs with
  | nil =>
    intro g h
    exact absurd rfl h
  | cons v rest ih =>
    intro g _
    cases rest with
    | nil => simp [Gauge.run, Gauge.step, Gauge.activate]
    | cons w ws =>
      rw [List.getLast?_cons_cons]
      have h := ih (Gauge.step g v) (by simp)
      simpa [Gauge.run] using h

/-- C7: after a non-empty sequence of Gauge Set activations the stored value
is the argument of the last call, and in particular a value that was actually
passed to some call in the sequence. -/
theorem gauge_last_write_wins (g : Gauge) (vs : List ℚ) (hne : vs ≠ []) :
    vs.getLast? = some (Gauge.run g vs).value ∧ (Gauge.run g vs).value ∈ vs := by
  have h := Gauge.run_getLast vs g hne
  refine ⟨h, ?_⟩
  obtain ⟨hne2, heq⟩ :=
    List.mem_getLast?_eq_getLast (Option.mem_def.mpr h)
  exact heq ▸ List.getLast_mem hne2

/-- Witness for C7 at the concrete Set sequence [1, 2, 3]. -/
theorem gauge_last_write_wins_witness :
    ([1, 2, 3] : List ℚ).getLast? = some (Gauge.run { value := 0 } [1, 2, 3]).value ∧
    (Gauge.run { value := 0 } [1, 2, 3]).value ∈ ([1, 2, 3] : List ℚ) :=
  gauge_last_write_wins { value := 0 } [1, 2, 3] (by simp)

/-- C9: all three mutate shards apply the same empty-label policy: an empty
Label parameter yields the empty label set, any other Label yields exactly
the single pair (Label, Value). -/
theorem empty_label_policy_uniform (label value : String) :
    Increment.pointLabels label value = Gauge.pointLabels label value ∧
    Gauge.pointLabels label value = Histogram.pointLabels label value ∧
    (label = "" → Increment.pointLabels label value = []) ∧
    (label ≠ "" → Increment.pointLabels label value = [(label, value)]) := by
  refine ⟨rfl, rfl, ?_, ?_⟩ <;> intro h <;> simp [Increment.pointLabels, h]

/-- Witness for C9 at an empty and a non-empty Label. -/
theorem empty_label_policy_uniform_witness :
    Increment.pointLabels "" "v" = [] ∧
    Increment.pointLabels "method" "GET" = [("method", "GET")] :=
  ⟨(empty_label_policy_uniform "" "v").2.2.1 rfl,
   (empty_label_policy_uniform "method" "GET").2.2.2 (by simp)⟩

/-- C10 counterexample: Increment's activate is not a pass-through for every
input; at input -1 it raises an ActivationError instead of returning the
input. -/
theorem increment_activate_not_total_passthrough :
    Increment.activate Counter.new (-1) =
      .error (.activationError "Prometheus Increment should be a positive number") := by
  norm_num [Increment.activate]

/-- C10 amended: Gauge and Histogram activates return their input unchanged
for every input; Increment's activate returns its input unchanged for every
non-negative input and fails (without returning) for negative input. -/
theorem activate_passthrough_on_success (c : Counter) (g : Gauge)
    (h : Histogram) (input : ℚ) :
    Gauge.activate g input = .ok ({ value := input }, input) ∧
    Histogram.activate h input = .ok (h.observe input, input) ∧
    (0 ≤ input → Increment.activate c input = .ok ({ value := c.value + input }, input)) ∧
    (input < 0 → (Increment.activate c input).isOk = false) := by
  refine ⟨rfl, rfl, ?_, ?_⟩ <;> intro hin
  · simp [Increment.activate, not_lt.mpr hin]
  · simp [Increment.activate, hin, Except.isOk, Except.toBool]

/-- Witness for C10's amended claim at inputs 5 and -2. -/
theorem activate_passthrough_on_success_witness :
    Increment.activate Counter.new 5 = .ok ({ value := Counter.new.value + 5 }, 5) ∧
    (Increment.activate Counter.new (-2)).isOk = false :=
  ⟨(activate_passthrough_on_success Counter.new { value := 0 }
      { boundaries := [], bucketCounts := [], infCount := 0, sum := 0 } 5).2.2.1
      (by norm_num),
   (activate_passthrough_on_success Counter.new { value := 0 }
      { boundaries := [], bucketCounts := [], infCount := 0, sum := 0 } (-2)).2.2.2
      (by norm_num)⟩

/-- C8: with a handle whose tag is not a valid exposer object, the warmup of
every mutate shard fails with the WarmupError raised by Base::warmup. -/
theorem invalid_handle_rejected (v : SHVarTag) (e : ExposerState)
    (name : String) (bs : List ℚ)
    (hbad : v.valueType ≠ SHType.object ∨ v.objectVendorId ≠ fragId ∨
      v.objectTypeId ≠ promId) :
    Increment.warmupFull v e name =
      .error (.warmupError "Prometheus.Exposer is not an exposer") ∧
    Gauge.warmupFull v e name =
      .error (.warmupError "Prometheus.Exposer is not an exposer") ∧
    Histogram.warmupFull v e name bs =
      .error (.warmupError "Prometheus.Exposer is not an exposer") := by
  have hchk : Base.warmupCheck v =
      .error (.warmupError "Prometheus.Exposer is not an exposer") := by
    simp only [Base.warmupCheck, if_pos hbad]
  refine ⟨?_, ?_, ?_⟩ <;>
    simp [Increment.warmupFull, Gauge.warmupFull, Histogram.warmupFull, hchk]

/-- Witness for C8 at a concrete non-exposer handle tag. -/
theorem invalid_handle_rejected_witness :
    Increment.warmupFull { valueType := SHType.float, objectVendorId := 0, objectTypeId := 0 }
      ExposerState.empty "m" =
      .error (.warmupError "Prometheus.Exposer is not an exposer") :=
  (invalid_handle_rejected
    { valueType := SHType.float, objectVendorId := 0, objectTypeId := 0 }
    ExposerState.empty "m" [] (Or.inl (by simp))).1

/-- Bucket update of one observation, indexwise: a bucket gets +1 exactly
when its boundary is ≥ the observed value. -/
theorem zipWith_bump_getD (v : ℚ) : ∀ (bs : List ℚ) (cs : List ℕ) (i : ℕ),
    i < bs.length → cs.length = bs.length →
    (List.zipWith (fun b c => if v ≤ b then c + 1 else c) bs cs).getD i 0 =
      cs.getD i 0 + if v ≤ bs.getD i 0 then 1 else 0 := by
  intro bs
  induction bs with
  | nil =>
    intro cs i hi _
    simp at hi
  | cons b bt ih =>
    intro cs i hi hlen
    cases cs with
    | nil => simp at hlen
    | cons c ct =>
      cases i with
      | zero =>
        by_cases hv : v ≤ b <;> simp [hv]
      | succ j =>
        simp only [List.zipWith_cons_cons, List.getD_cons_succ]
        refine ih ct j ?_ ?_
        · simpa using Nat.lt_of_succ_lt_succ hi
        · simpa using hlen

/-- C4: observing a value bumps exactly the cumulative buckets whose boundary
is ≥ the value, always counts the observation in the +Inf bucket, and adds
the value to the running sum; on the spec scenario with boundaries
[0.1, 0.5, 1.0] and observations 0.05, 0.3, 2.0 the bucket counts are
[1, 2, 2], the +Inf count 3, the sum 2.35 and the total count 3. -/
theorem histogram_observe_cumulative (h : Histogram) (v : ℚ)
    (hlen : h.bucketCounts.length = h.boundaries.length) :
    ((h.observe v).sum = h.sum + v) ∧
    ((h.observe v).infCount = h.infCount + 1) ∧
    ((h.observe v).boundaries = h.boundaries) ∧
    (∀ i, i < h.boundaries.length →
      (h.observe v).bucketCounts.getD i 0 =
        h.bucketCounts.getD i 0 + if v ≤ h.boundaries.getD i 0 then 1 else 0) ∧
    ((Histogram.create [1/10, 1/2, 1]).map
        (fun h0 => h0.observeMany [1/20, 3/10, 2]) =
      .ok { boundaries := [1/10, 1/2, 1], bucketCounts := [1, 2, 2],
            infCount := 3, sum := 47/20 }) := by
  refine ⟨rfl, rfl, rfl, ?_, ?_⟩
  · intro i hi
    exact zipWith_bump_getD v h.boundaries h.bucketCounts i hi hlen
  · have hcreate : Histogram.create [1/10, 1/2, 1] = .ok
        { boundaries := [1/10, 1/2, 1], bucketCounts := [0, 0, 0],
          infCount := 0, sum := 0 } := by
      rw [Histogram.create, if_neg]
      · norm_num [List.replicate]
      · push_neg
        exact ⟨by simp, by norm_num [strictlyAscending]⟩
    rw [hcreate]
    norm_num [Except.map, Histogram.observeMany, Histogram.observe]

/-- Witness for C4 at a concrete histogram, observation and bucket index. -/
theorem histogram_observe_cumulative_witness :
    (({ boundaries := [(1:ℚ), 2], bucketCounts := [0, 0], infCount := 0,
        sum := 0 } : Histogram).observe 1).bucketCounts.getD 0 0 = 1 := by
  have h := (histogram_observe_cumulative
    { boundaries := [1, 2], bucketCounts := [0, 0], infCount := 0, sum := 0 }
    1 rfl).2.2.2.1 0 (by norm_num)
  simpa using h

/-- The executable ascending check coincides with strict chain ordering. -/
theorem strictlyAscending_iff_chain (bs : List ℚ) :
    strictlyAscending bs = true ↔ List.Chain' (· < ·) bs := by
  induction bs with
  | nil => simp [strictlyAscending]
  | cons a rest ih =>
    cases rest with
    | nil => simp [strictlyAscending]
    | cons b t =>
      simp only [strictlyAscending, Bool.and_eq_true, decide_eq_true_eq,
        List.chain'_cons] at ih ⊢
      rw [ih]

/-- C5: creating a Histogram series fails with a ConfigurationError exactly
when the boundary list is empty or not strictly ascending, and succeeds
exactly when it is non-empty and strictly ascending. -/
theorem histogram_boundaries_validated (bs : List ℚ) :
    (strictlyAscending bs = true ↔ List.Chain' (· < ·) bs) ∧
    (Histogram.create bs = .error .configurationError ↔
      (bs = [] ∨ strictlyAscending bs = false)) ∧
    ((Histogram.create bs).isOk = true ↔
      (bs ≠ [] ∧ strictlyAscending bs = true)) := by
  refine ⟨strictlyAscending_iff_chain bs, ?_, ?_⟩
  · by_cases hc : bs = [] ∨ strictlyAscending bs = false <;>
      simp [Histogram.create, hc]
  · by_cases hc : bs = [] ∨ strictlyAscending bs = false
    · simp only [Histogram.create, if_pos hc, Except.isOk, Except.toBool]
      simp only [Bool.false_eq_true, false_iff, not_and]
      rcases hc with hc | hc <;> simp [hc]
    · simp only [Histogram.create, if_neg hc, Except.isOk, Except.toBool]
      push_neg at hc
      simp only [true_iff]
      exact ⟨hc.1, by simpa using hc.2⟩

/-- Witness for C5 at the empty list, a descending list, and the ascending
spec-scenario boundaries. -/
theorem histogram_boundaries_validated_witness :
    Histogram.create ([] : List ℚ) = .error .configurationError ∧
    Histogram.create [3, 1] = .error .configurationError ∧
    (Histogram.create [1/10, 1/2, 1]).isOk = true := by
  refine ⟨?_, ?_, ?_⟩
  · exact (histogram_boundaries_validated []).2.1.mpr (Or.inl rfl)
  · exact (histogram_boundaries_validated [3, 1]).2.1.mpr
      (Or.inr (by norm_num [strictlyAscending]))
  · exact (histogram_boundaries_validated [1/10, 1/2, 1]).2.2.mpr
      ⟨by simp, by norm_num [strictlyAscending]⟩

/-- C1: after "m" is registered as a Counter, warming up a Gauge shard with
the same name fails with the std::out_of_range raised by gauges.at — an
unrelated error, not the KindConflict/ConfigurationError the spec requires —
because Gauge::warmup tests the counters map instead of the gauges map; a
second Gauge warmup on a name already registered as a Gauge does reuse the
stored family and succeeds unchanged. -/
theorem gauge_after_counter_wrong_error :
    Increment.warmup ExposerState.empty "m" = .ok counterMState ∧
    Gauge.warmup counterMState "m" = .error .outOfRange ∧
    ShardError.outOfRange ≠ ShardError.kindConflict ∧
    ShardError.outOfRange ≠ ShardError.configurationError ∧
    Gauge.warmup ExposerState.empty "g" = .ok gaugeGState ∧
    Gauge.warmup gaugeGState "g" = .ok gaugeGState := by
  refine ⟨?_, ?_, by decide, by decide, ?_, ?_⟩
  · simp [Increment.warmup, ExposerState.empty, Registry.register, emplaceKey,
      counterMState]
  · simp [Gauge.warmup, counterMState]
  · simp [Gauge.warmup, ExposerState.empty, Registry.register, emplaceKey,
      gaugeGState]
  · simp [Gauge.warmup, gaugeGState, Registry.register, emplaceKey]
